import Mathlib

/-!
Verification of the NutriSnap meal-logging backend (AI Council pipeline).

The definitions below are a shallow embedding of the Python source:
  - `backend/services/ai_council.py` (NutritionCalculator, AdvisorAgent, AICouncil)
  - `backend/main.py` (log_meal, get_dashboard, analyze_image endpoints)
  - `backend/models.py` (NutritionData and its non-negativity bounds)

Python floats are modelled as exact rationals (`ℚ`); Python's `round(x, 1)`
(round-half-to-even) is modelled by `pyRound1`.  External providers are
modelled as explicit parameters: the nutrition provider by a
`NutritionResponse` value, the advisor and vision providers by oracle
functions.  Python exceptions are modelled as `Except String` with the
exception's message string, since the source distinguishes error kinds only
by message content.
-/

namespace NutriSnap

/-- Python `round(x, 1)`: round to one decimal place, ties to even
(banker's rounding, the semantics of Python's built-in `round`). -/
def pyRound1 (x : ℚ) : ℚ :=
  let y : ℚ := x * 10
  let f : ℤ := ⌊y⌋
  let frac : ℚ := y - f
  let n : ℤ :=
    if frac < 1/2 then f
    else if 1/2 < frac then f + 1
    else if f % 2 = 0 then f else f + 1
  (n : ℚ) / 10

/-- Python `sum(...)` over a list of numbers: a left fold with initial value 0. -/
def py_sum (l : List ℚ) : ℚ := l.foldl (· + ·) 0

/-- Python's `str.lower()` (ASCII range, as exercised by the provider
names the source compares against). -/
def py_lower (s : String) : String := ⟨s.data.map Char.toLower⟩

/-- Substring test, modelling Python's `needle in haystack` on strings. -/
def str_contains (s pat : String) : Bool :=
  (List.range (s.length + 1)).any (fun i => pat.data.isPrefixOf (s.data.drop i))

/-- One item of a CalorieNinjas response.  The source reads each field with
`item.get(field, 0)`, so every field is optional with default 0. -/
structure NutritionItem where
  calories : Option ℚ
  protein_g : Option ℚ
  carbohydrates_total_g : Option ℚ
  fat_total_g : Option ℚ
deriving DecidableEq, Repr

/-- The summed macronutrient dict `{calories, protein, carbs, fats}` returned
by `NutritionCalculator.calculate_nutrition`. -/
structure NutritionDict where
  calories : ℚ
  protein : ℚ
  carbs : ℚ
  fats : ℚ
deriving DecidableEq, Repr

/-- Outcome of the HTTP call to the nutrition provider, as observed by
`calculate_nutrition`: either the request timed out, or an HTTP response
arrived with a status code, a body text and (for parsed 200-responses) the
`items` list (missing `items` key is already `[]`, matching
`data.get("items", [])`). -/
inductive NutritionResponse where
  | timeout : NutritionResponse
  | http (status : Nat) (text : String) (items : List NutritionItem) : NutritionResponse
deriving DecidableEq, Repr

/-- The "no items recognized" message raised by `calculate_nutrition`
(ai_council.py lines 144-147). -/
def no_items_msg : String :=
  "No food items recognized. Please simplify the description " ++
  "(e.g., \x27chickpea soup 300ml\x27 instead of \x27Hlalem\x27)."

/-- The timeout message raised by `calculate_nutrition` (ai_council.py line 165). -/
def timeout_msg : String := "CalorieNinjas API timeout. Please try again."

/-- The `except Exception` clause of `calculate_nutrition` (lines 166-169):
re-raise the "no items" error verbatim, wrap everything else in
`"Nutrition calculation failed: ..."`. -/
def wrap_nutrition_error (e : String) : String :=
  if str_contains e "No food items recognized" then e
  else "Nutrition calculation failed: " ++ e

/-- `NutritionCalculator.calculate_nutrition` (ai_council.py lines 113-169),
as a function of the provider's response.  Sums each field over all items
(each field read with default 0) and rounds each sum to one decimal. -/
def calculate_nutrition (resp : NutritionResponse) : Except String NutritionDict :=
  match resp with
  | .timeout => .error timeout_msg
  | .http status text items =>
    if status ≠ 200 then
      .error (wrap_nutrition_error
        ("CalorieNinjas API error: " ++ toString status ++ " - " ++ text))
    else if items.isEmpty then
      .error (wrap_nutrition_error no_items_msg)
    else
      let total_calories := py_sum (items.map (fun item => item.calories.getD 0))
      let total_protein := py_sum (items.map (fun item => item.protein_g.getD 0))
      let total_carbs := py_sum (items.map (fun item => item.carbohydrates_total_g.getD 0))
      let total_fats := py_sum (items.map (fun item => item.fat_total_g.getD 0))
      .ok { calories := pyRound1 total_calories
            protein := pyRound1 total_protein
            carbs := pyRound1 total_carbs
            fats := pyRound1 total_fats }

/-- Arguments of one call to `AdvisorAgent.generate_advice`
(ai_council.py lines 217-223). -/
structure AdvisorCall where
  health_goal : String
  dish_name : String
  total_calories : ℚ
  remaining_calories : ℚ
deriving DecidableEq, Repr

/-- `AdvisorAgent.generate_advice` (ai_council.py lines 217-257) as a function
of the text-generation provider (`oracle`): on success the provider's text is
stripped; any provider error is wrapped as "Advisor Agent failed: ...". -/
def generate_advice (oracle : AdvisorCall → Except String String)
    (call : AdvisorCall) : Except String String :=
  match oracle call with
  | .ok advice => .ok advice.trim
  | .error e => .error ("Advisor Agent failed: " ++ e)

/-- The `user_profile` dict passed to `process_meal`: both keys are read with
`.get(key, default)`, so each is optional. -/
structure UserProfileDict where
  daily_calorie_goal : Option ℤ
  health_goal : Option String
deriving DecidableEq, Repr

/-- The `{'nutrition': ..., 'ai_advice': ...}` dict returned by `process_meal`. -/
structure MealResult where
  nutrition : NutritionDict
  ai_advice : String
deriving DecidableEq, Repr

/-- `AICouncil.process_meal` (ai_council.py lines 324-363), as a function of
the nutrition provider's response and the advisor provider oracle.  Besides
the result, it returns the list of advisor invocations made (in order), so
that call-ordering properties can be stated. -/
def process_meal (nutResp : NutritionResponse)
    (oracle : AdvisorCall → Except String String)
    (verified_text : String) (user_profile : UserProfileDict)
    (current_daily_total : ℚ) :
    Except String MealResult × List AdvisorCall :=
  match calculate_nutrition nutResp with
  | .error e => (.error e, [])
  | .ok nutrition =>
    let daily_goal : ℤ := user_profile.daily_calorie_goal.getD 2500
    let new_total : ℚ := current_daily_total + nutrition.calories
    let remaining : ℚ := (daily_goal : ℚ) - new_total
    let call : AdvisorCall :=
      { health_goal := user_profile.health_goal.getD "maintain"
        dish_name := verified_text
        total_calories := nutrition.calories
        remaining_calories := remaining }
    match generate_advice oracle call with
    | .error e => (.error e, [call])
    | .ok advice => (.ok ⟨nutrition, advice⟩, [call])

/-- `AICouncil.analyze_image` composed with `VisionAgent.analyze_image`
(ai_council.py lines 55-94 and 312-322), as a function of the vision
provider: on success the provider's text is stripped; any error is wrapped
as "Vision Agent failed: ...". -/
def council_analyze_image (vision : List Nat → Except String String)
    (image_bytes : List Nat) : Except String String :=
  match vision image_bytes with
  | .ok response_content => .ok response_content.trim
  | .error e => .error ("Vision Agent failed: " ++ e)

-- ==================== AdvisorAgent construction (provider selection) ====

/-- The provider configuration selected by `AdvisorAgent.__init__`. -/
structure AdvisorConfig where
  provider : String
  api_key : String
  model_name : String
deriving DecidableEq, Repr

/-- `AdvisorAgent.__init__` (ai_council.py lines 181-205) as a function of the
process environment.  `ADVISOR_PROVIDER` defaults to "groq" and is
lowercased; the value "openrouter" selects the OpenRouter path (credential
`OPENROUTER_API_KEY` required, model `OPENROUTER_MODEL` defaulting to
"anthropic/claude-3.5-sonnet"); every other value takes the `else` branch
(credential `GROQ_API_KEY` required, model fixed to "llama3-70b-8192"). -/
def advisor_agent_init (env : String → Option String) :
    Except String AdvisorConfig :=
  let provider := py_lower ((env "ADVISOR_PROVIDER").getD "groq")
  if provider = "openrouter" then
    match env "OPENROUTER_API_KEY" with
    | none => .error "OPENROUTER_API_KEY not found in environment variables"
    | some api_key =>
      .ok { provider := provider
            api_key := api_key
            model_name := (env "OPENROUTER_MODEL").getD "anthropic/claude-3.5-sonnet" }
  else
    match env "GROQ_API_KEY" with
    | none => .error "GROQ_API_KEY not found in environment variables"
    | some api_key =>
      .ok { provider := provider
            api_key := api_key
            model_name := "llama3-70b-8192" }

-- ==================== main.py: persistence layer and endpoints ==========

/-- A MongoDB meal-log document as written by `log_meal` (main.py 187-194).
Timestamps are UTC microseconds since the epoch (datetime granularity). -/
structure MealRecord where
  user_id : Nat
  timestamp : ℤ
  dish_name : String
  image_url : Option String
  nutrition : NutritionDict
  ai_advice : String
deriving DecidableEq, Repr

/-- A stored user document; the goal fields are read with `user.get(...)`,
so each is optional. -/
structure UserDoc where
  daily_calorie_goal : Option ℤ
  health_goal : Option String
deriving DecidableEq, Repr

/-- The users collection, keyed by ObjectId (modelled as `Nat`). -/
abbrev UsersCollection := List (Nat × UserDoc)

/-- `users_collection.find_one({"_id": user_object_id})`. -/
def find_one (users : UsersCollection) (uid : Nat) : Option UserDoc :=
  (users.find? (fun p => p.1 == uid)).map (·.2)

/-- Microseconds in one day (datetime microsecond granularity). -/
def microsecondsPerDay : ℤ := 86400000000

/-- `datetime.utcnow().replace(hour=0, minute=0, second=0, microsecond=0)`:
truncate a UTC timestamp down to its day boundary. -/
def utc_day_start (now : ℤ) : ℤ :=
  microsecondsPerDay * (now.fdiv microsecondsPerDay)

/-- The Mongo filter `{"user_id": uid, "timestamp": {"$gte": today_start}}`
used by both `log_meal` and `get_dashboard`. -/
def is_today_meal (uid : Nat) (today_start : ℤ) (m : MealRecord) : Bool :=
  m.user_id == uid && decide (today_start ≤ m.timestamp)

/-- An `HTTPException(status_code, detail)`. -/
structure HTTPError where
  status_code : Nat
  detail : String
deriving DecidableEq, Repr

/-- The `NutritionData` pydantic bounds (models.py lines 33-39: every field
carries `ge=0`), checked when a `NutritionData` response model is built. -/
def nutrition_data_valid (n : NutritionDict) : Bool :=
  decide (0 ≤ n.calories) && decide (0 ≤ n.protein) &&
    decide (0 ≤ n.carbs) && decide (0 ≤ n.fats)

/-- The `LogMealResponse` model (models.py lines 162-169). -/
structure LogMealResponse where
  meal_id : Nat
  dish_name : String
  nutrition : NutritionDict
  ai_advice : String
  timestamp : ℤ
deriving DecidableEq, Repr

/-- The `/log-meal` handler `log_meal` (main.py lines 131-211), as a function
of the users collection, the meal-log store, the request fields, the two
provider behaviours and the clock.  Returns the HTTP outcome and the store
after the call.  Mirrors the source: user lookup, daily-total accumulation
over today's meals, `process_meal`, document insert, then response-model
construction (whose `NutritionData` validation runs only after the insert). -/
def log_meal (users : UsersCollection) (store : List MealRecord)
    (user_id_valid : Bool) (user_id : Nat)
    (verified_text : String) (image_url : Option String)
    (nutResp : NutritionResponse)
    (oracle : AdvisorCall → Except String String)
    (now : ℤ) : Except HTTPError LogMealResponse × List MealRecord :=
  if !user_id_valid then (.error ⟨400, "Invalid user_id format."⟩, store)
  else
    match find_one users user_id with
    | none => (.error ⟨404, "User not found."⟩, store)
    | some user =>
      let today_start := utc_day_start now
      let current_daily_total :=
        py_sum ((store.filter (is_today_meal user_id today_start)).map
          (fun m => m.nutrition.calories))
      let user_profile : UserProfileDict :=
        { daily_calorie_goal := some (user.daily_calorie_goal.getD 2500)
          health_goal := some (user.health_goal.getD "maintain") }
      match (process_meal nutResp oracle verified_text user_profile
          current_daily_total).1 with
      | .error e => (.error ⟨500, "Meal logging failed: " ++ e⟩, store)
      | .ok result =>
        let meal_log : MealRecord :=
          { user_id := user_id
            timestamp := now
            dish_name := verified_text
            image_url := image_url
            nutrition := result.nutrition
            ai_advice := result.ai_advice }
        let store' := store ++ [meal_log]
        if nutrition_data_valid result.nutrition then
          (.ok { meal_id := store.length
                 dish_name := verified_text
                 nutrition := result.nutrition
                 ai_advice := result.ai_advice
                 timestamp := now }, store')
        else
          (.error ⟨500, "Meal logging failed: nutrition validation error"⟩, store')

/-- Accumulator of the aggregation loop in `get_dashboard`
(main.py lines 258-270). -/
structure DashboardAcc where
  calories : ℚ
  protein : ℚ
  carbs : ℚ
  fats : ℚ
  count : Nat
deriving DecidableEq, Repr

/-- One iteration of the `async for meal in today_meals` loop. -/
def dashboard_step (a : DashboardAcc) (meal : MealRecord) : DashboardAcc :=
  { calories := a.calories + meal.nutrition.calories
    protein := a.protein + meal.nutrition.protein
    carbs := a.carbs + meal.nutrition.carbs
    fats := a.fats + meal.nutrition.fats
    count := a.count + 1 }

/-- The `DashboardResponse` model (models.py lines 189-197). -/
structure DashboardResponse where
  user_id : Nat
  daily_goal : ℤ
  total_consumed : ℚ
  remaining : ℚ
  meals_today : Nat
  nutrition_totals : NutritionDict
deriving DecidableEq, Repr

/-- The `/dashboard/{user_id}` handler `get_dashboard` (main.py lines
215-291): look the user up, filter today's meals, accumulate the five
totals in one pass, then round each reported value to one decimal. -/
def get_dashboard (users : UsersCollection) (store : List MealRecord)
    (user_id_valid : Bool) (user_id : Nat) (now : ℤ) :
    Except HTTPError DashboardResponse :=
  if !user_id_valid then .error ⟨400, "Invalid user_id format."⟩
  else
    match find_one users user_id with
    | none => .error ⟨404, "User not found."⟩
    | some user =>
      let daily_goal : ℤ := user.daily_calorie_goal.getD 2500
      let today_start := utc_day_start now
      let today_meals := store.filter (is_today_meal user_id today_start)
      let acc := today_meals.foldl dashboard_step ⟨0, 0, 0, 0, 0⟩
      let remaining : ℚ := (daily_goal : ℚ) - acc.calories
      .ok { user_id := user_id
            daily_goal := daily_goal
            total_consumed := pyRound1 acc.calories
            remaining := pyRound1 remaining
            meals_today := acc.count
            nutrition_totals :=
              { calories := pyRound1 acc.calories
                protein := pyRound1 acc.protein
                carbs := pyRound1 acc.carbs
                fats := pyRound1 acc.fats } }

/-- The `AnalyzeImageResponse` model (models.py lines 147-151). -/
structure AnalyzeImageResponse where
  detected_text : String
  confidence : Option String
deriving DecidableEq, Repr

/-- The `/analyze` handler `analyze_image` (main.py lines 84-127), threaded
through the meal-log store state (the handler body reads no collection and
writes none, which the store-passing translation makes explicit): validate
content type and size, delegate to the council's vision step, wrap errors. -/
def analyze_image (vision : List Nat → Except String String)
    (store : List MealRecord) (content_type : String)
    (image_bytes : List Nat) :
    Except HTTPError AnalyzeImageResponse × List MealRecord :=
  if !content_type.startsWith "image/" then
    (.error ⟨400, "Invalid file type. Only images (JPEG/PNG) are supported."⟩, store)
  else if 10 * 1024 * 1024 < image_bytes.length then
    (.error ⟨400, "Image too large (max 10MB)."⟩, store)
  else
    match council_analyze_image vision image_bytes with
    | .ok detected_text => (.ok ⟨detected_text, none⟩, store)
    | .error e => (.error ⟨500, "Image analysis failed: " ++ e⟩, store)

-- ==================== Concrete instances used in witnesses ==============

/-- Multiples of one tenth: the granularity of every value rounded by
`pyRound1` (the data model stores nutrition values rounded to one decimal). -/
def IsTenth (x : ℚ) : Prop := ∃ k : ℤ, x = (k : ℚ)/10

/-- A nutrition provider response for the spec scenario "grilled fish with
salad, 300g": two items summing to calories 350, protein 40, carbs 10,
fats 12. -/
def items1 : List NutritionItem :=
  [ { calories := some 200, protein_g := some 30
      carbohydrates_total_g := some 5, fat_total_g := some 8 }
  , { calories := some 150, protein_g := some 10
      carbohydrates_total_g := some 5, fat_total_g := some 4 } ]

/-- The spec-scenario response wrapped as a 200 HTTP response. -/
def resp1 : NutritionResponse := .http 200 "ok" items1

/-- A provider response carrying one item with a negative calories field. -/
def bad_resp : NutritionResponse :=
  .http 200 "ok"
    [ { calories := some (-1), protein_g := some 0
        carbohydrates_total_g := some 0, fat_total_g := some 0 } ]

/-- A deterministic advisor oracle that always succeeds. -/
def oracle0 : AdvisorCall → Except String String := fun _ => .ok "Advice."

/-- An advisor oracle that always fails. -/
def oracle_fail : AdvisorCall → Except String String := fun _ => .error "boom"

/-- A stored user: goal 2000 kcal, objective lose_weight. -/
def u1 : UserDoc := { daily_calorie_goal := some 2000, health_goal := some "lose_weight" }

/-- A one-user collection holding `u1` under id 1. -/
def users1 : UsersCollection := [(1, u1)]

/-- Noon (UTC) of the epoch day, in microseconds. -/
def now0 : ℤ := 43200000000

/-- Three meals for user 1 logged today (one exactly at the day boundary)
with calories 450, 320 and 680: the spec's dashboard scenario. -/
def store3 : List MealRecord :=
  [ { user_id := 1, timestamp := 0, dish_name := "a", image_url := none
      nutrition := ⟨450, 20, 30, 10⟩, ai_advice := "x" }
  , { user_id := 1, timestamp := 3600000000, dish_name := "b", image_url := none
      nutrition := ⟨320, 10, 40, 5⟩, ai_advice := "y" }
  , { user_id := 1, timestamp := 7200000000, dish_name := "c", image_url := none
      nutrition := ⟨680, 50, 60, 25⟩, ai_advice := "z" } ]

/-- An environment selecting an unrecognized advisor provider "bogus"
while supplying the Groq credential. -/
def env0 : String → Option String := fun k =>
  if k = "ADVISOR_PROVIDER" then some "bogus"
  else if k = "GROQ_API_KEY" then some "groq-key"
  else none

/-- An environment supplying only the Groq credential. -/
def env_groq : String → Option String := fun k =>
  if k = "GROQ_API_KEY" then some "gk" else none

-- ==================== Helper lemmas =====================================

theorem foldl_add_eq (a : ℚ) (l : List ℚ) : l.foldl (· + ·) a = a + l.sum := by
  induction l generalizing a with
  | nil => simp
  | cons x xs ih => simp only [List.foldl_cons, ih, List.sum_cons]; ring

theorem py_sum_eq_sum (l : List ℚ) : py_sum l = l.sum := by
  simp [py_sum, foldl_add_eq]

theorem pyRound1_tenths (k : ℤ) : pyRound1 ((k : ℚ)/10) = (k : ℚ)/10 := by
  have hy : ((k : ℚ)/10) * 10 = (k : ℚ) := by field_simp
  simp only [pyRound1, hy, Int.floor_intCast]
  norm_num

theorem pyRound1_intCast (n : ℤ) : pyRound1 ((n : ℚ)) = (n : ℚ) := by
  have h := pyRound1_tenths (10 * n)
  push_cast at h
  rw [mul_comm, mul_div_assoc] at h
  norm_num at h
  exact h

theorem pyRound1_nonneg {x : ℚ} (h : 0 ≤ x) : 0 ≤ pyRound1 x := by
  simp only [pyRound1]
  have hy : (0:ℚ) ≤ x * 10 := by positivity
  have hf : (0:ℤ) ≤ ⌊x * 10⌋ := Int.floor_nonneg.mpr hy
  split_ifs <;>
    exact div_nonneg (by exact_mod_cast (by omega : (0:ℤ) ≤ _)) (by norm_num)

theorem pyRound1_is_tenth (x : ℚ) : ∃ k : ℤ, pyRound1 x = (k : ℚ)/10 :=
  ⟨_, rfl⟩

theorem IsTenth.zero : IsTenth 0 := ⟨0, by norm_num⟩

theorem IsTenth.add {x y : ℚ} (hx : IsTenth x) (hy : IsTenth y) :
    IsTenth (x + y) := by
  obtain ⟨a, rfl⟩ := hx; obtain ⟨b, rfl⟩ := hy
  exact ⟨a + b, by push_cast; ring⟩

theorem IsTenth.intCast (n : ℤ) : IsTenth (n : ℚ) := ⟨10 * n, by push_cast; ring⟩

theorem IsTenth.sub {x y : ℚ} (hx : IsTenth x) (hy : IsTenth y) :
    IsTenth (x - y) := by
  obtain ⟨a, rfl⟩ := hx; obtain ⟨b, rfl⟩ := hy
  exact ⟨a - b, by push_cast; ring⟩

theorem IsTenth.pyRound1_eq {x : ℚ} (hx : IsTenth x) : pyRound1 x = x := by
  obtain ⟨k, rfl⟩ := hx; exact pyRound1_tenths k

theorem IsTenth.list_sum {l : List ℚ} (h : ∀ x ∈ l, IsTenth x) :
    IsTenth l.sum := by
  induction l with
  | nil => simpa using IsTenth.zero
  | cons x xs ih =>
    simp only [List.sum_cons]
    exact (h x (by simp)).add (ih fun y hy => h y (by simp [hy]))

theorem pyRound1_eq_intCast {x y : ℚ} (n : ℤ) (hx : x = (n : ℚ))
    (hy : y = (n : ℚ)) : pyRound1 x = y := by
  subst hx hy; exact pyRound1_intCast n

theorem calc_items1 : calculate_nutrition resp1 = .ok ⟨350, 40, 10, 12⟩ := by
  simp [calculate_nutrition, resp1, items1, py_sum]
  exact ⟨pyRound1_eq_intCast 350 (by norm_num) (by norm_num),
    pyRound1_eq_intCast 40 (by norm_num) (by norm_num),
    pyRound1_eq_intCast 10 (by norm_num) (by norm_num),
    pyRound1_eq_intCast 12 (by norm_num) (by norm_num)⟩

/-- C1: for every nutrition-provider response with at least one item,
`calculate_nutrition` returns the summary whose four fields are the
per-field sums over all items, each rounded to one decimal place, and the
result does not depend on the order of the items. -/
theorem C1_nutrition_sum_rounded_order_independent
    (items : List NutritionItem) (text : String) (h : items ≠ []) :
    calculate_nutrition (.http 200 text items) = .ok
      { calories := pyRound1 ((items.map (fun i => i.calories.getD 0)).sum)
        protein := pyRound1 ((items.map (fun i => i.protein_g.getD 0)).sum)
        carbs := pyRound1 ((items.map (fun i => i.carbohydrates_total_g.getD 0)).sum)
        fats := pyRound1 ((items.map (fun i => i.fat_total_g.getD 0)).sum) } ∧
    ∀ (items' : List NutritionItem) (text' : String), items'.Perm items →
      calculate_nutrition (.http 200 text' items') =
        calculate_nutrition (.http 200 text items) := by
  have hne : items.isEmpty = false := by
    cases items with
    | nil => exact absurd rfl h
    | cons a l => rfl
  constructor
  · simp [calculate_nutrition, hne, py_sum_eq_sum]
  · intro items' text' hperm
    have hne' : items'.isEmpty = false := by
      cases items' with
      | nil => exact absurd hperm.symm.eq_nil h
      | cons a l => rfl
    have h1 := ((hperm.map (fun i => i.calories.getD 0)).sum_eq)
    have h2 := ((hperm.map (fun i => i.protein_g.getD 0)).sum_eq)
    have h3 := ((hperm.map (fun i => i.carbohydrates_total_g.getD 0)).sum_eq)
    have h4 := ((hperm.map (fun i => i.fat_total_g.getD 0)).sum_eq)
    simp [calculate_nutrition, hne, hne', py_sum_eq_sum, h1, h2, h3, h4]

theorem C1_witness :
    items1 ≠ [] ∧
    calculate_nutrition (.http 200 "ok" items1) = .ok ⟨350, 40, 10, 12⟩ := by
  refine ⟨by simp [items1], ?_⟩
  rw [(C1_nutrition_sum_rounded_order_independent items1 "ok" (by simp [items1])).1]
  simp [items1]
  exact ⟨pyRound1_eq_intCast 350 (by norm_num) (by norm_num),
    pyRound1_eq_intCast 40 (by norm_num) (by norm_num),
    pyRound1_eq_intCast 10 (by norm_num) (by norm_num),
    pyRound1_eq_intCast 12 (by norm_num) (by norm_num)⟩

/-- C2: a 200-response with zero items always makes `calculate_nutrition`
fail with the "no items recognized" message (which carries the
simplify-the-description hint), never return a summary; that message is
distinguishable from the timeout message, is re-raised verbatim by the
step's own error-wrapping clause, and stays distinguishable in the detail
of the 500 error `log_meal` surfaces. -/
theorem C2_no_items_distinguishable_failure :
    (∀ text : String, calculate_nutrition (.http 200 text []) = .error no_items_msg) ∧
    str_contains no_items_msg "No food items recognized" = true ∧
    str_contains timeout_msg "No food items recognized" = false ∧
    no_items_msg ≠ timeout_msg ∧
    wrap_nutrition_error no_items_msg = no_items_msg ∧
    str_contains ("Meal logging failed: " ++ no_items_msg)
      "No food items recognized" = true ∧
    (∀ (users : UsersCollection) (store : List MealRecord) (uid : Nat)
       (u : UserDoc) (text text2 : String) (img : Option String)
       (oracle : AdvisorCall → Except String String) (now : ℤ),
       find_one users uid = some u →
       (log_meal users store true uid text img (.http 200 text2 []) oracle now).1 =
         .error ⟨500, "Meal logging failed: " ++ no_items_msg⟩) := by
  have hc : str_contains no_items_msg "No food items recognized" = true := by decide
  have hw : wrap_nutrition_error no_items_msg = no_items_msg := by
    simp [wrap_nutrition_error, hc]
  have h1 : ∀ text, calculate_nutrition (.http 200 text []) = .error no_items_msg := by
    intro text; simp [calculate_nutrition, hw]
  refine ⟨h1, hc, by decide, by decide, hw, by decide, ?_⟩
  intro users store uid u text text2 img oracle now hu
  simp [log_meal, hu, process_meal, h1]

theorem C2_witness :
    find_one users1 1 = some u1 ∧
    (log_meal users1 [] true 1 "Hlalem" none (.http 200 "Hlalem" [])
      oracle0 now0).1 = .error ⟨500, "Meal logging failed: " ++ no_items_msg⟩ := by
  refine ⟨by simp [users1, find_one], ?_⟩
  exact C2_no_items_distinguishable_failure.2.2.2.2.2.2 users1 [] 1 u1 "Hlalem"
    "Hlalem" none oracle0 now0 (by simp [users1, find_one])

/-- C3: in `process_meal`, if the Nutrition Step fails the Advisor Step is
never invoked (the advisor trace is empty and the nutrition error
propagates), and every advisor invocation that does occur carries the
output of an already-completed successful Nutrition Step. -/
theorem C3_advisor_only_after_nutrition
    (nutResp : NutritionResponse) (oracle : AdvisorCall → Except String String)
    (text : String) (up : UserProfileDict) (total : ℚ) :
    (∀ e, calculate_nutrition nutResp = .error e →
      process_meal nutResp oracle text up total = (.error e, [])) ∧
    (∀ call ∈ (process_meal nutResp oracle text up total).2,
      ∃ n, calculate_nutrition nutResp = .ok n ∧ call.total_calories = n.calories) := by
  constructor
  · intro e he
    simp [process_meal, he]
  · intro call hcall
    cases hn : calculate_nutrition nutResp with
    | error e => simp [process_meal, hn] at hcall
    | ok n =>
      refine ⟨n, rfl, ?_⟩
      cases hg : generate_advice oracle
          { health_goal := up.health_goal.getD "maintain"
            dish_name := text
            total_calories := n.calories
            remaining_calories := ((up.daily_calorie_goal.getD 2500 : ℤ) : ℚ) -
              (total + n.calories) } with
      | error e =>
        simp [process_meal, hn, hg] at hcall
        simp [hcall]
      | ok a =>
        simp [process_meal, hn, hg] at hcall
        simp [hcall]

theorem C3_witness :
    process_meal .timeout oracle0 "grilled fish with salad, 300g"
      ⟨some 2000, some "lose_weight"⟩ 800 = (.error timeout_msg, []) :=
  (C3_advisor_only_after_nutrition .timeout oracle0 "grilled fish with salad, 300g"
    ⟨some 2000, some "lose_weight"⟩ 800).1 timeout_msg rfl

/-- C4: whenever the Nutrition Step succeeds, the single Advisor invocation
of `process_meal` receives remaining_calories equal to
daily_calorie_goal - current_daily_total - nutrition.calories exactly
(an exact rational identity, so a negative value when the goal is
exceeded is represented exactly as well). -/
theorem C4_remaining_exact
    (nutResp : NutritionResponse) (oracle : AdvisorCall → Except String String)
    (text : String) (up : UserProfileDict) (total : ℚ) (n : NutritionDict)
    (h : calculate_nutrition nutResp = .ok n) :
    (process_meal nutResp oracle text up total).2 =
      [ { health_goal := up.health_goal.getD "maintain"
          dish_name := text
          total_calories := n.calories
          remaining_calories :=
            ((up.daily_calorie_goal.getD 2500 : ℤ) : ℚ) - total - n.calories } ] := by
  cases hg : generate_advice oracle
      { health_goal := up.health_goal.getD "maintain"
        dish_name := text
        total_calories := n.calories
        remaining_calories := ((up.daily_calorie_goal.getD 2500 : ℤ) : ℚ) -
          (total + n.calories) } with
  | error e => simp [process_meal, h, hg]; ring
  | ok a => simp [process_meal, h, hg]; ring

theorem C4_witness :
    (process_meal resp1 oracle0 "grilled fish with salad, 300g"
      ⟨some 2000, some "lose_weight"⟩ 800).2 =
      [⟨"lose_weight", "grilled fish with salad, 300g", 350, 850⟩] ∧
    (process_meal resp1 oracle0 "grilled fish with salad, 300g"
      ⟨some 2000, some "lose_weight"⟩ 2000).2 =
      [⟨"lose_weight", "grilled fish with salad, 300g", 350, -350⟩] ∧
    (-350 : ℚ) < 0 := by
  refine ⟨?_, ?_, by norm_num⟩
  · rw [C4_remaining_exact resp1 oracle0 "grilled fish with salad, 300g"
      ⟨some 2000, some "lose_weight"⟩ 800 ⟨350, 40, 10, 12⟩ calc_items1]
    norm_num
  · rw [C4_remaining_exact resp1 oracle0 "grilled fish with salad, 300g"
      ⟨some 2000, some "lose_weight"⟩ 2000 ⟨350, 40, 10, 12⟩ calc_items1]
    norm_num

theorem process_meal_fst_error_of_advisor_fail
    {nutResp : NutritionResponse} {oracle : AdvisorCall → Except String String}
    {text : String} {up : UserProfileDict} {total : ℚ} {n : NutritionDict}
    (hgen : ∀ c, ∃ e2, generate_advice oracle c = .error e2)
    (hn : calculate_nutrition nutResp = .ok n) :
    ∃ e, (process_meal nutResp oracle text up total).1 = .error e := by
  obtain ⟨e2, he2⟩ := hgen
    { health_goal := up.health_goal.getD "maintain"
      dish_name := text
      total_calories := n.calories
      remaining_calories := ((up.daily_calorie_goal.getD 2500 : ℤ) : ℚ) -
        (total + n.calories) }
  exact ⟨e2, by simp [process_meal, hn, he2]⟩

theorem log_meal_store_unchanged_of_fst_error
    {users : UsersCollection} {store : List MealRecord} {valid : Bool}
    {uid : Nat} {text : String} {img : Option String}
    {nutResp : NutritionResponse} {oracle : AdvisorCall → Except String String}
    {now : ℤ}
    (h : ∀ up tot, ∃ e, (process_meal nutResp oracle text up tot).1 = .error e) :
    (log_meal users store valid uid text img nutResp oracle now).2 = store := by
  cases valid with
  | false => simp [log_meal]
  | true =>
    cases hu : find_one users uid with
    | none => simp [log_meal, hu]
    | some user =>
      obtain ⟨e, he⟩ := h
        { daily_calorie_goal := some (user.daily_calorie_goal.getD 2500)
          health_goal := some (user.health_goal.getD "maintain") }
        (py_sum ((store.filter (is_today_meal uid (utc_day_start now))).map
          (fun m => m.nutrition.calories)))
      simp [log_meal, hu, he]

/-- C5: meal logging is all-or-nothing: if the Nutrition Step fails (the
provider response makes `calculate_nutrition` error) or the Advisor Step
fails (the advisor oracle errors on every call), `log_meal` leaves the
meal-log store exactly as it was — nothing is persisted. -/
theorem C5_all_or_nothing
    (users : UsersCollection) (store : List MealRecord) (valid : Bool)
    (uid : Nat) (text : String) (img : Option String)
    (nutResp : NutritionResponse) (oracle : AdvisorCall → Except String String)
    (now : ℤ) :
    (∀ e, calculate_nutrition nutResp = .error e →
      (log_meal users store valid uid text img nutResp oracle now).2 = store) ∧
    ((∀ c, ∃ e, oracle c = .error e) →
      (log_meal users store valid uid text img nutResp oracle now).2 = store) := by
  constructor
  · intro e he
    exact log_meal_store_unchanged_of_fst_error
      (fun up tot => ⟨e, by simp [process_meal, he]⟩)
  · intro hfail
    have hgen : ∀ c, ∃ e2, generate_advice oracle c = .error e2 := by
      intro c
      obtain ⟨e, he⟩ := hfail c
      exact ⟨"Advisor Agent failed: " ++ e, by simp [generate_advice, he]⟩
    apply log_meal_store_unchanged_of_fst_error
    intro up tot
    cases hn : calculate_nutrition nutResp with
    | error e => exact ⟨e, by simp [process_meal, hn]⟩
    | ok n => exact process_meal_fst_error_of_advisor_fail hgen hn

theorem C5_witness :
    (log_meal users1 [] true 1 "grilled fish" none .timeout oracle0 now0).2 = [] ∧
    (log_meal users1 [] true 1 "grilled fish" none resp1 oracle_fail now0).2 = [] :=
  ⟨(C5_all_or_nothing users1 [] true 1 "grilled fish" none .timeout oracle0 now0).1
      timeout_msg rfl,
   (C5_all_or_nothing users1 [] true 1 "grilled fish" none resp1 oracle_fail now0).2
      (fun _ => ⟨"boom", rfl⟩)⟩

theorem calc_bad : calculate_nutrition bad_resp = .ok ⟨-1, 0, 0, 0⟩ := by
  simp [calculate_nutrition, bad_resp, py_sum]
  refine ⟨?_, ?_⟩
  · exact pyRound1_eq_intCast (-1) (by norm_num) (by norm_num)
  · exact pyRound1_eq_intCast 0 (by norm_num) (by norm_num)

theorem process_meal_ok_nutrition
    {nutResp : NutritionResponse} {oracle : AdvisorCall → Except String String}
    {text : String} {up : UserProfileDict} {total : ℚ} {r : MealResult}
    (h : (process_meal nutResp oracle text up total).1 = .ok r) :
    calculate_nutrition nutResp = .ok r.nutrition := by
  cases hn : calculate_nutrition nutResp with
  | error e => simp [process_meal, hn] at h
  | ok n =>
    cases hg : generate_advice oracle
        { health_goal := up.health_goal.getD "maintain"
          dish_name := text
          total_calories := n.calories
          remaining_calories := ((up.daily_calorie_goal.getD 2500 : ℤ) : ℚ) -
            (total + n.calories) } with
    | error e => simp [process_meal, hn, hg] at h
    | ok a =>
      simp [process_meal, hn, hg] at h
      rw [← h]

/-- C6 counterexample: the claim quantifies over every provider response,
but `calculate_nutrition` performs no sign check, so a response carrying
one item with calories -1 yields a summary with a negative field. -/
theorem C6_counterexample :
    ¬ (∀ (resp : NutritionResponse) (n : NutritionDict),
        calculate_nutrition resp = .ok n →
        0 ≤ n.calories ∧ 0 ≤ n.protein ∧ 0 ≤ n.carbs ∧ 0 ≤ n.fats) := by
  intro h
  have hc := (h bad_resp ⟨-1, 0, 0, 0⟩ calc_bad).1
  norm_num at hc

/-- C6 (amended): if every field of every item in the provider response is
non-negative, then the summary produced by `calculate_nutrition` has all
four fields ≥ 0, and every MealRecord that `log_meal` adds to the store
from such a response satisfies the same invariant. -/
theorem C6_amended_nonneg
    (items : List NutritionItem) (btext : String)
    (hitems : ∀ i ∈ items, 0 ≤ i.calories.getD 0 ∧ 0 ≤ i.protein_g.getD 0 ∧
      0 ≤ i.carbohydrates_total_g.getD 0 ∧ 0 ≤ i.fat_total_g.getD 0) :
    (∀ n, calculate_nutrition (.http 200 btext items) = .ok n →
      0 ≤ n.calories ∧ 0 ≤ n.protein ∧ 0 ≤ n.carbs ∧ 0 ≤ n.fats) ∧
    (∀ (users : UsersCollection) (store : List MealRecord) (valid : Bool)
       (uid : Nat) (text : String) (img : Option String)
       (oracle : AdvisorCall → Except String String) (now : ℤ) (m : MealRecord),
       m ∈ (log_meal users store valid uid text img (.http 200 btext items)
         oracle now).2 →
       m ∈ store ∨ (0 ≤ m.nutrition.calories ∧ 0 ≤ m.nutrition.protein ∧
         0 ≤ m.nutrition.carbs ∧ 0 ≤ m.nutrition.fats)) := by
  have hfield : ∀ (f : NutritionItem → ℚ), (∀ i ∈ items, 0 ≤ f i) →
      (0 : ℚ) ≤ pyRound1 ((items.map f).sum) := by
    intro f hf
    apply pyRound1_nonneg
    apply List.sum_nonneg
    intro x hx
    obtain ⟨i, hi, rfl⟩ := List.mem_map.mp hx
    exact hf i hi
  have hmain : ∀ n, calculate_nutrition (.http 200 btext items) = .ok n →
      0 ≤ n.calories ∧ 0 ≤ n.protein ∧ 0 ≤ n.carbs ∧ 0 ≤ n.fats := by
    intro n hn
    by_cases hne : items.isEmpty
    · simp [calculate_nutrition, hne] at hn
    · simp [calculate_nutrition, hne, py_sum_eq_sum] at hn
      rw [← hn]
      exact ⟨hfield _ (fun i hi => (hitems i hi).1),
        hfield _ (fun i hi => (hitems i hi).2.1),
        hfield _ (fun i hi => (hitems i hi).2.2.1),
        hfield _ (fun i hi => (hitems i hi).2.2.2)⟩
  refine ⟨hmain, ?_⟩
  intro users store valid uid text img oracle now m hm
  cases valid with
  | false => simp [log_meal] at hm; exact .inl hm
  | true =>
    cases hu : find_one users uid with
    | none => simp [log_meal, hu] at hm; exact .inl hm
    | some user =>
      cases hp : (process_meal (.http 200 btext items) oracle text
          { daily_calorie_goal := some (user.daily_calorie_goal.getD 2500)
            health_goal := some (user.health_goal.getD "maintain") }
          (py_sum ((store.filter (is_today_meal uid (utc_day_start now))).map
            (fun m => m.nutrition.calories)))).1 with
      | error e =>
        simp [log_meal, hu, hp] at hm
        exact .inl hm
      | ok r =>
        have hnn := hmain r.nutrition (process_meal_ok_nutrition hp)
        simp [log_meal, hu, hp, apply_ite] at hm
        rcases hm with hm | hm
        · exact .inl hm
        · subst hm
          exact .inr hnn

theorem C6_witness :
    0 ≤ (350 : ℚ) ∧ 0 ≤ (40 : ℚ) ∧ 0 ≤ (10 : ℚ) ∧ 0 ≤ (12 : ℚ) :=
  (C6_amended_nonneg items1 "ok" (by
    intro i hi
    simp [items1] at hi
    rcases hi with rfl | rfl <;> norm_num)).1 ⟨350, 40, 10, 12⟩ calc_items1

theorem dashboard_foldl (l : List MealRecord) (a : DashboardAcc) :
    l.foldl dashboard_step a =
      { calories := a.calories + (l.map (fun m => m.nutrition.calories)).sum
        protein := a.protein + (l.map (fun m => m.nutrition.protein)).sum
        carbs := a.carbs + (l.map (fun m => m.nutrition.carbs)).sum
        fats := a.fats + (l.map (fun m => m.nutrition.fats)).sum
        count := a.count + l.length } := by
  induction l generalizing a with
  | nil => simp
  | cons x xs ih =>
    simp only [List.foldl_cons, ih, List.map_cons, List.sum_cons, List.length_cons]
    simp only [dashboard_step, DashboardAcc.mk.injEq]
    refine ⟨by ring, by ring, by ring, by ring, by omega⟩

/-- C7: for a found user, the dashboard equals the exact field-wise sums of
the stored one-decimal NutritionSummary values over precisely the records
of that user timestamped at or after the UTC day boundary (a record at the
boundary instant passes the filter, one strictly before it does not), with
meals_today the count of those records and remaining the goal minus the
calorie total. -/
theorem C7_dashboard_aggregate
    (users : UsersCollection) (store : List MealRecord) (uid : Nat)
    (u : UserDoc) (now : ℤ)
    (hu : find_one users uid = some u)
    (ht : ∀ m ∈ store, IsTenth m.nutrition.calories ∧ IsTenth m.nutrition.protein ∧
      IsTenth m.nutrition.carbs ∧ IsTenth m.nutrition.fats) :
    get_dashboard users store true uid now = .ok
      { user_id := uid
        daily_goal := u.daily_calorie_goal.getD 2500
        total_consumed := ((store.filter (is_today_meal uid (utc_day_start now))).map
          (fun m => m.nutrition.calories)).sum
        remaining := ((u.daily_calorie_goal.getD 2500 : ℤ) : ℚ) -
          ((store.filter (is_today_meal uid (utc_day_start now))).map
            (fun m => m.nutrition.calories)).sum
        meals_today := (store.filter (is_today_meal uid (utc_day_start now))).length
        nutrition_totals :=
          { calories := ((store.filter (is_today_meal uid (utc_day_start now))).map
              (fun m => m.nutrition.calories)).sum
            protein := ((store.filter (is_today_meal uid (utc_day_start now))).map
              (fun m => m.nutrition.protein)).sum
            carbs := ((store.filter (is_today_meal uid (utc_day_start now))).map
              (fun m => m.nutrition.carbs)).sum
            fats := ((store.filter (is_today_meal uid (utc_day_start now))).map
              (fun m => m.nutrition.fats)).sum } } ∧
    (∀ m : MealRecord, m.user_id = uid → m.timestamp = utc_day_start now →
      is_today_meal uid (utc_day_start now) m = true) ∧
    (∀ m : MealRecord, m.timestamp < utc_day_start now →
      is_today_meal uid (utc_day_start now) m = false) := by
  have hIT : ∀ (f : MealRecord → ℚ), (∀ m ∈ store, IsTenth (f m)) →
      IsTenth (((store.filter (is_today_meal uid (utc_day_start now))).map f).sum) := by
    intro f hf
    apply IsTenth.list_sum
    intro x hx
    obtain ⟨m, hm, rfl⟩ := List.mem_map.mp hx
    exact hf m (List.mem_filter.mp hm).1
  have hcal := hIT _ (fun m hm => (ht m hm).1)
  have hpro := hIT _ (fun m hm => (ht m hm).2.1)
  have hcar := hIT _ (fun m hm => (ht m hm).2.2.1)
  have hfat := hIT _ (fun m hm => (ht m hm).2.2.2)
  refine ⟨?_, ?_, ?_⟩
  · simp only [get_dashboard, Bool.not_true, hu, dashboard_foldl]
    simp only [zero_add]
    rw [hcal.pyRound1_eq, hpro.pyRound1_eq, hcar.pyRound1_eq, hfat.pyRound1_eq,
      ((IsTenth.intCast (u.daily_calorie_goal.getD 2500)).sub hcal).pyRound1_eq]
    simp
  · intro m h1 h2
    simp [is_today_meal, h1, h2]
  · intro m h2
    have hnle : ¬ (utc_day_start now ≤ m.timestamp) := not_le.mpr h2
    simp [is_today_meal, hnle]

theorem C7_witness :
    find_one users1 1 = some u1 ∧
    (∀ m ∈ store3, IsTenth m.nutrition.calories ∧ IsTenth m.nutrition.protein ∧
      IsTenth m.nutrition.carbs ∧ IsTenth m.nutrition.fats) ∧
    get_dashboard users1 store3 true 1 now0 = .ok
      { user_id := 1, daily_goal := 2000, total_consumed := 1450,
        remaining := 550, meals_today := 3,
        nutrition_totals := ⟨1450, 80, 130, 40⟩ } := by
  have hu : find_one users1 1 = some u1 := by simp [users1, find_one]
  have ht : ∀ m ∈ store3, IsTenth m.nutrition.calories ∧ IsTenth m.nutrition.protein ∧
      IsTenth m.nutrition.carbs ∧ IsTenth m.nutrition.fats := by
    intro m hm
    simp [store3] at hm
    rcases hm with rfl | rfl | rfl
    · exact ⟨⟨4500, by norm_num⟩, ⟨200, by norm_num⟩, ⟨300, by norm_num⟩, ⟨100, by norm_num⟩⟩
    · exact ⟨⟨3200, by norm_num⟩, ⟨100, by norm_num⟩, ⟨400, by norm_num⟩, ⟨50, by norm_num⟩⟩
    · exact ⟨⟨6800, by norm_num⟩, ⟨500, by norm_num⟩, ⟨600, by norm_num⟩, ⟨250, by norm_num⟩⟩
  refine ⟨hu, ht, ?_⟩
  rw [(C7_dashboard_aggregate users1 store3 1 u1 now0 hu ht).1]
  have h0 : utc_day_start now0 = 0 := by decide
  simp [store3, u1, is_today_meal, h0]
  norm_num

/-- C8 counterexample: construction succeeds with `ADVISOR_PROVIDER=bogus`
(falling through to the Groq path with its hard-coded model name), so the
selection does not recognize exactly "groq" or "openrouter", and the model
name is not supplied via configuration. -/
theorem C8_counterexample :
    ¬ (∀ (env : String → Option String) (cfg : AdvisorConfig),
        advisor_agent_init env = .ok cfg →
        (cfg.provider = "groq" ∨ cfg.provider = "openrouter") ∧
        (∃ k, env k = some cfg.model_name)) := by
  intro h
  have h0 : advisor_agent_init env0 = .ok ⟨"bogus", "groq-key", "llama3-70b-8192"⟩ := rfl
  rcases (h env0 ⟨"bogus", "groq-key", "llama3-70b-8192"⟩ h0).1 with h1 | h1 <;>
    simp at h1

/-- C8 (amended): `advisor_agent_init` reads `ADVISOR_PROVIDER` once at
construction (default "groq", lowercased); the value "openrouter" selects
OpenRouter with credential `OPENROUTER_API_KEY` from configuration and
model name `OPENROUTER_MODEL` defaulting to "anthropic/claude-3.5-sonnet";
every other value (not only "groq") selects Groq with credential
`GROQ_API_KEY` from configuration and the fixed model name
"llama3-70b-8192"; each branch fails when its credential is absent. -/
theorem C8_amended_provider_selection
    (env : String → Option String) (cfg : AdvisorConfig)
    (h : advisor_agent_init env = .ok cfg) :
    cfg.provider = py_lower ((env "ADVISOR_PROVIDER").getD "groq") ∧
    (env "ADVISOR_PROVIDER" = none → cfg.provider = "groq") ∧
    (cfg.provider = "openrouter" →
      env "OPENROUTER_API_KEY" = some cfg.api_key ∧
      cfg.model_name = (env "OPENROUTER_MODEL").getD "anthropic/claude-3.5-sonnet") ∧
    (cfg.provider ≠ "openrouter" →
      env "GROQ_API_KEY" = some cfg.api_key ∧
      cfg.model_name = "llama3-70b-8192") := by
  by_cases hp : py_lower ((env "ADVISOR_PROVIDER").getD "groq") = "openrouter"
  · cases hk : env "OPENROUTER_API_KEY" with
    | none => simp [advisor_agent_init, hp, hk] at h
    | some key =>
      simp only [advisor_agent_init, hp, if_pos, hk] at h
      injection h with h
      subst h
      refine ⟨by rw [hp], ?_, ?_, ?_⟩
      · intro henv
        rw [henv] at hp
        exact absurd hp (by decide)
      · intro _; exact ⟨rfl, rfl⟩
      · intro hne; exact absurd rfl hne
  · cases hk : env "GROQ_API_KEY" with
    | none => simp [advisor_agent_init, hp, hk] at h
    | some key =>
      simp only [advisor_agent_init, if_neg hp, hk] at h
      injection h with h
      subst h
      refine ⟨rfl, ?_, ?_, ?_⟩
      · intro henv
        show py_lower ((env "ADVISOR_PROVIDER").getD "groq") = "groq"
        rw [henv]
        decide
      · intro hor; exact absurd hor hp
      · intro _; exact ⟨rfl, rfl⟩

theorem C8_witness :
    advisor_agent_init env_groq = .ok ⟨"groq", "gk", "llama3-70b-8192"⟩ ∧
    ("groq" : String) = py_lower ((env_groq "ADVISOR_PROVIDER").getD "groq") ∧
    env_groq "GROQ_API_KEY" = some "gk" := by
  have h0 : advisor_agent_init env_groq = .ok ⟨"groq", "gk", "llama3-70b-8192"⟩ := rfl
  have hm := C8_amended_provider_selection env_groq ⟨"groq", "gk", "llama3-70b-8192"⟩ h0
  exact ⟨h0, hm.1, (hm.2.2.2 (by decide)).1⟩

theorem process_meal_trace_of_ok
    {nutResp : NutritionResponse} {oracle : AdvisorCall → Except String String}
    {text : String} {up : UserProfileDict} {total : ℚ} {n : NutritionDict}
    (hn : calculate_nutrition nutResp = .ok n) :
    (process_meal nutResp oracle text up total).2 =
      [ { health_goal := up.health_goal.getD "maintain"
          dish_name := text
          total_calories := n.calories
          remaining_calories := ((up.daily_calorie_goal.getD 2500 : ℤ) : ℚ) -
            (total + n.calories) } ] := by
  cases hg : generate_advice oracle
      { health_goal := up.health_goal.getD "maintain"
        dish_name := text
        total_calories := n.calories
        remaining_calories := ((up.daily_calorie_goal.getD 2500 : ℤ) : ℚ) -
          (total + n.calories) } with
  | error e => simp [process_meal, hn, hg]
  | ok a => simp [process_meal, hn, hg]

/-- C9: the `/analyze` endpoint has no persistence side effect — the
meal-log store after a call equals the store before it — and with a
deterministic vision provider, running the call a second time (on the
post-call store) yields the identical outcome. -/
theorem C9_analyze_stateless_deterministic
    (vision : List Nat → Except String String) (store : List MealRecord)
    (content_type : String) (image_bytes : List Nat) :
    (analyze_image vision store content_type image_bytes).2 = store ∧
    (analyze_image vision
        (analyze_image vision store content_type image_bytes).2
        content_type image_bytes).1 =
      (analyze_image vision store content_type image_bytes).1 ∧
    (analyze_image vision
        (analyze_image vision store content_type image_bytes).2
        content_type image_bytes).2 = store := by
  have h2 : ∀ s, (analyze_image vision s content_type image_bytes).2 = s := by
    intro s
    simp only [analyze_image]
    split_ifs
    · rfl
    · rfl
    · cases h : council_analyze_image vision image_bytes <;> rfl
  have h1 : ∀ s s2, (analyze_image vision s content_type image_bytes).1 =
      (analyze_image vision s2 content_type image_bytes).1 := by
    intro s s2
    simp only [analyze_image]
    split_ifs
    · rfl
    · rfl
    · cases h : council_analyze_image vision image_bytes <;> rfl
  exact ⟨h2 store, h1 _ store, (h2 _).trans (h2 store)⟩

/-- C10: a `user_profile` missing `daily_calorie_goal` behaves exactly as
one carrying 2500, and one missing `health_goal` exactly as one carrying
"maintain" — in `process_meal` the advisor receives goal "maintain" and a
remaining computed against 2500, the pipeline still succeeds when both
providers succeed, and `log_meal` behaves identically whether the stored
user document carries the two fields or lacks them. -/
theorem C10_missing_goal_defaults
    (nutResp : NutritionResponse) (oracle : AdvisorCall → Except String String)
    (text : String) (total : ℚ) :
    (process_meal nutResp oracle text ⟨none, none⟩ total =
      process_meal nutResp oracle text ⟨some 2500, some "maintain"⟩ total) ∧
    (∀ n, calculate_nutrition nutResp = .ok n →
      (process_meal nutResp oracle text ⟨none, none⟩ total).2 =
        [⟨"maintain", text, n.calories, (2500 : ℚ) - total - n.calories⟩]) ∧
    (∀ n, calculate_nutrition nutResp = .ok n →
      (∀ c, ∃ s, oracle c = .ok s) →
      ∃ r, (process_meal nutResp oracle text ⟨none, none⟩ total).1 = .ok r) ∧
    (∀ (store : List MealRecord) (valid : Bool) (uid : Nat) (img : Option String)
       (now : ℤ),
      log_meal [(uid, ⟨none, none⟩)] store valid uid text img nutResp oracle now =
        log_meal [(uid, ⟨some 2500, some "maintain"⟩)] store valid uid text img
          nutResp oracle now) := by
  refine ⟨rfl, ?_, ?_, ?_⟩
  · intro n hn
    rw [process_meal_trace_of_ok hn]
    simp only [Option.getD_none, List.cons.injEq, AdvisorCall.mk.injEq, true_and,
      and_true]
    push_cast
    ring
  · intro n hn hok
    obtain ⟨s, hs⟩ := hok
      { health_goal := "maintain"
        dish_name := text
        total_calories := n.calories
        remaining_calories := ((2500 : ℤ) : ℚ) - (total + n.calories) }
    refine ⟨⟨n, s.trim⟩, ?_⟩
    simp only [process_meal, hn, generate_advice, Option.getD_none, hs]
  · intro store valid uid img now
    cases valid with
    | false => simp [log_meal]
    | true => simp [log_meal, find_one]

theorem C10_witness :
    (process_meal resp1 oracle0 "grilled fish with salad, 300g"
      ⟨none, none⟩ 800).2 =
      [⟨"maintain", "grilled fish with salad, 300g", 350, 1350⟩] := by
  have h := (C10_missing_goal_defaults resp1 oracle0
    "grilled fish with salad, 300g" 800).2.1 ⟨350, 40, 10, 12⟩ calc_items1
  rw [h]
  norm_num

end NutriSnap
